import Mathlib

/-!
Shallow embedding of the `pcdswidgets` widget code
(`src/pcdswidgets/icons/base.py` and `src/pcdswidgets/symbols/valves.py`).

Qt objects are modelled as plain records of the attributes the code touches;
Python floats are modelled as rationals; calling `update()` (a repaint
request) is modelled as incrementing a counter on the widget state.
-/

namespace Pcdswidgets

/- Qt enumeration constants used by the code, by their Qt values. -/
namespace Qt

def SolidLine : Nat := 1

def SolidPattern : Nat := 1

def Horizontal : Nat := 1

def Vertical : Nat := 2

end Qt

/-- A Qt color, as the RGB triple the code constructs (`QColor(r, g, b)`). -/
structure QColor where
  r : Nat
  g : Nat
  b : Nat
deriving DecidableEq, Repr

/-- A Qt brush: a color and a fill-pattern style (`QBrush(color, pattern)`). -/
structure QBrush where
  color : QColor
  style : Nat
deriving DecidableEq, Repr

/-- A Qt pen: the attributes `base.py` reads or writes
(`setStyle`, `setColor`, `setWidth`, `setWidthF`, `setCosmetic`). -/
structure QPen where
  style : Nat
  color : QColor
  width : ℚ
  cosmetic : Bool
deriving DecidableEq, Repr

/-- Conversion of a rational to an integer by truncation toward zero:
the C++ `int` conversion performed by `QPen.setWidth`. -/
def cppIntOfRat (q : ℚ) : ℤ :=
  if 0 ≤ q then ⌊q⌋ else ⌈q⌉

/-- `QPen(style)`: a black pen of width 0 with the given style. -/
def QPen.ofStyle (st : Nat) : QPen :=
  { style := st, color := ⟨0, 0, 0⟩, width := 0, cosmetic := false }

/-- `QPen.setStyle`. -/
def QPen.setStyle (p : QPen) (st : Nat) : QPen :=
  { p with style := st }

/-- `QPen.setColor`. -/
def QPen.setColor (p : QPen) (c : QColor) : QPen :=
  { p with color := c }

/-- `QPen.setWidth`: takes an `int`, so the argument is truncated toward
zero before being stored. -/
def QPen.setWidth (p : QPen) (w : ℚ) : QPen :=
  { p with width := (cppIntOfRat w : ℚ) }

/-- `QPen.setWidthF`: stores the full-precision width. -/
def QPen.setWidthF (p : QPen) (w : ℚ) : QPen :=
  { p with width := w }

/-- `QPen.setCosmetic`. -/
def QPen.setCosmetic (p : QPen) (b : Bool) : QPen :=
  { p with cosmetic := b }

/-- The state of a `BaseSymbolIcon` widget: the attributes set in
`BaseSymbolIcon.__init__`, plus `update_count`, which counts the calls
to `update()` on the widget (repaint requests). -/
structure BaseSymbolIcon where
  _brush : QBrush
  _original_brush : Option QBrush
  _rotation : ℚ
  _pen_style : Nat
  _pen : QPen
  _pen_width : ℚ
  _pen_color : QColor
  _original_pen_style : Nat
  _original_pen_color : QColor
  update_count : Nat
deriving DecidableEq, Repr

namespace BaseSymbolIcon

/-- `BaseSymbolIcon.__init__`, line by line. -/
def init : BaseSymbolIcon :=
  let brush0 : QBrush := { color := ⟨0, 255, 0⟩, style := Qt.SolidPattern }
  let pen_style0 : Nat := Qt.SolidLine
  let pen0 := QPen.ofStyle pen_style0
  let pen1 := pen0.setCosmetic true
  let pen_width0 : ℚ := 1
  let pen_color0 : QColor := ⟨0, 0, 0⟩
  let pen2 := pen1.setWidthF pen_width0
  let pen3 := pen2.setColor pen_color0
  { _brush := brush0
    _original_brush := none
    _rotation := 0
    _pen_style := pen_style0
    _pen := pen3
    _pen_width := pen_width0
    _pen_color := pen_color0
    _original_pen_style := pen_style0
    _original_pen_color := pen_color0
    update_count := 0 }

/-- The `update()` method of the widget: request a repaint. -/
def update (s : BaseSymbolIcon) : BaseSymbolIcon :=
  { s with update_count := s.update_count + 1 }

/-- The `brush` property getter. -/
def brush (s : BaseSymbolIcon) : QBrush := s._brush

/-- The `brush` property setter. -/
def setBrush (s : BaseSymbolIcon) (new_brush : QBrush) : BaseSymbolIcon :=
  if new_brush ≠ s._brush then
    update { s with _brush := new_brush }
  else s

/-- The `penStyle` property getter. -/
def penStyle (s : BaseSymbolIcon) : Nat := s._pen_style

/-- The `penStyle` property setter. -/
def setPenStyle (s : BaseSymbolIcon) (new_style : Nat) : BaseSymbolIcon :=
  if new_style ≠ s._pen_style then
    update { s with _pen_style := new_style, _pen := s._pen.setStyle new_style }
  else s

/-- The `penColor` property getter. -/
def penColor (s : BaseSymbolIcon) : QColor := s._pen_color

/-- The `penColor` property setter. -/
def setPenColor (s : BaseSymbolIcon) (new_color : QColor) : BaseSymbolIcon :=
  if new_color ≠ s._pen_color then
    update { s with _pen_color := new_color, _pen := s._pen.setColor new_color }
  else s

/-- The `penWidth` property getter. -/
def penWidth (s : BaseSymbolIcon) : ℚ := s._pen_width

/-- The `penWidth` property setter: a negative width is rejected without
any change; otherwise, when the value differs from the stored one, the
stored width is replaced, the pen is updated through the integer
`setWidth`, and a repaint is requested. -/
def setPenWidth (s : BaseSymbolIcon) (new_width : ℚ) : BaseSymbolIcon :=
  if new_width < 0 then s
  else if new_width ≠ s._pen_width then
    update { s with _pen_width := new_width, _pen := s._pen.setWidth new_width }
  else s

/-- The `rotation` property getter. -/
def rotation (s : BaseSymbolIcon) : ℚ := s._rotation

/-- The `rotation` property setter (no guard: it always stores and
repaints). -/
def setRotation (s : BaseSymbolIcon) (angle : ℚ) : BaseSymbolIcon :=
  update { s with _rotation := angle }

end BaseSymbolIcon

/-- The rectangle of a paint event (`event.rect()`): origin `x`, `y` and
size `w`, `h`. -/
structure QRect where
  x : ℚ
  y : ℚ
  w : ℚ
  h : ℚ
deriving DecidableEq, Repr

/-- The painter/canvas commands issued by `BaseSymbolIcon.paintEvent`,
in the vocabulary of the Qt calls the method makes. -/
inductive PaintCmd where
  | setClipping (b : Bool)
  | drawPrimitiveWidget
  | setRenderHintAntialiasing
  | translate (dx dy : ℚ)
  | rotate (angle : ℚ)
  | scale (sx sy : ℚ)
  | setBrush (b : QBrush)
  | setPen (p : QPen)
  | drawIcon
  | qwidgetPaintEvent
deriving DecidableEq, Repr

/-- `BaseSymbolIcon.paintEvent` as the trace of the painter commands it
issues, in source order.  The widget state itself is not modified by a
paint event.  (`draw_icon` of the base class is a no-op; subclasses
override it, which the trace records as the single `drawIcon` command.) -/
def BaseSymbolIcon.paintEvent (s : BaseSymbolIcon) (rect : QRect) : List PaintCmd :=
  [ PaintCmd.setClipping true,
    PaintCmd.drawPrimitiveWidget,
    PaintCmd.setRenderHintAntialiasing,
    PaintCmd.translate (rect.w / 2) (rect.h / 2),
    PaintCmd.rotate s._rotation,
    PaintCmd.translate (-(rect.w / 2)) (-(rect.h / 2)),
    PaintCmd.translate (s._pen_width / 2) (s._pen_width / 2),
    PaintCmd.scale (rect.w - s._pen_width) (rect.h - s._pen_width),
    PaintCmd.translate rect.x rect.y,
    PaintCmd.setBrush s._brush,
    PaintCmd.setPen s._pen,
    PaintCmd.drawIcon,
    PaintCmd.qwidgetPaintEvent ]

/-- The operations a `BaseSymbolIcon` widget state undergoes: the
constructor is `BaseSymbolIcon.init`, and these are the property setters
and the paint event. -/
inductive IconOp where
  | opSetBrush (b : QBrush)
  | opSetPenStyle (st : Nat)
  | opSetPenColor (c : QColor)
  | opSetPenWidth (w : ℚ)
  | opSetRotation (a : ℚ)
  | opPaint (rect : QRect)
deriving DecidableEq, Repr

/-- Effect of one operation on the widget state.  A paint event draws on
the canvas (see `BaseSymbolIcon.paintEvent`) but leaves the widget state
unchanged. -/
def applyOp (s : BaseSymbolIcon) : IconOp → BaseSymbolIcon
  | IconOp.opSetBrush b => s.setBrush b
  | IconOp.opSetPenStyle st => s.setPenStyle st
  | IconOp.opSetPenColor c => s.setPenColor c
  | IconOp.opSetPenWidth w => s.setPenWidth w
  | IconOp.opSetRotation a => s.setRotation a
  | IconOp.opPaint _ => s

/-- Modelled from the spec: the enumerated placement setting
(`ContentLocation`, defined in `pcdswidgets/symbols/base.py`, which is not
under `src/`).  `valves.py` references the members `Top` and `Bottom` and
treats every other placement uniformly; the remaining placements of a
controls frame around an icon are `Hidden`, `Left` and `Right`. -/
inductive ContentLocation where
  | Hidden
  | Top
  | Bottom
  | Left
  | Right
deriving DecidableEq, Repr

/-- The state of the `PyDMEnumButton` open/close control: the attributes
`valves.py` writes (`orientation`, `setMinimumSize`, `channel`). -/
structure PyDMEnumButton where
  orientation : Nat
  minimum_width : Nat
  minimum_height : Nat
  channel : Option String
deriving DecidableEq, Repr

/-- The state of a valve symbol widget (`PneumaticValve` / `FastShutter`):
the interlock flag and controls-frame enabled flag, the controls location,
the open/close button, the channels prefix (`""` when unset), and the
channel addresses created for the mixins. -/
structure ValveWidget where
  _interlocked : Bool
  controls_frame_enabled : Bool
  _controls_location : ContentLocation
  open_close_btn : PyDMEnumButton
  channelsPrefixStr : String
  interlock_channel : Option String
  error_channel : Option String
  open_state_channel : Option String
  close_state_channel : Option String
deriving DecidableEq, Repr

/-- Modelled from the spec: `InterlockMixin.interlock_value_changed`
(defined in `pcdswidgets/symbols/mixins.py`, which is not under `src/`)
records the interlock status from the interlock channel value.  Per the
spec glossary ("Interlock: a safety signal disabling manual control when
asserted") and the docstring in `valves.py` ("The value from the channel
will be either 0 or 1 with 1 meaning that the widget is interlocked"),
the widget is interlocked exactly when the value is 1. -/
def InterlockMixin.interlock_value_changed (s : ValveWidget) (value : Nat) :
    ValveWidget :=
  { s with _interlocked := value == 1 }

/-- Modelled from the spec: `PCDSSymbolBase.assemble_layout` (defined in
`pcdswidgets/symbols/base.py`, which is not under `src/`) rearranges the
icon and the controls frame according to the placement setting; it does
not touch the open/close button, which only the subclass code adjusts. -/
def PCDSSymbolBase.assemble_layout (s : ValveWidget) : ValveWidget := s

/-- Modelled from the spec: `PCDSSymbolBase.create_channels` (defined in
`pcdswidgets/symbols/base.py`, which is not under `src/`) wires each mixin
control to an external channel whose address is the channels prefix
followed by the suffix the subclass passed for that mixin, when a
non-empty prefix is set. -/
def PCDSSymbolBase.create_channels (interlock_suffix error_suffix : String)
    (open_suffix close_suffix : String) (s : ValveWidget) : ValveWidget :=
  if s.channelsPrefixStr ≠ "" then
    { s with
      interlock_channel := some (s.channelsPrefixStr ++ interlock_suffix)
      error_channel := some (s.channelsPrefixStr ++ error_suffix)
      open_state_channel := some (s.channelsPrefixStr ++ open_suffix)
      close_state_channel := some (s.channelsPrefixStr ++ close_suffix) }
  else s

/-- Modelled from the spec: `PCDSSymbolBase.destroy_channels` (defined in
`pcdswidgets/symbols/base.py`, which is not under `src/`) clears the
channels created for the mixins. -/
def PCDSSymbolBase.destroy_channels (s : ValveWidget) : ValveWidget :=
  { s with
    interlock_channel := none
    error_channel := none
    open_state_channel := none
    close_state_channel := none }

namespace PneumaticValve

/-- `PneumaticValve._interlock_suffix`. -/
def _interlock_suffix : String := ":OPN_OK"

/-- `PneumaticValve._error_suffix`. -/
def _error_suffix : String := ":STATE"

/-- `PneumaticValve._open_state_suffix`. -/
def _open_state_suffix : String := ":OPN_DI"

/-- `PneumaticValve._close_state_suffix`. -/
def _close_state_suffix : String := ":CLS_DI"

/-- The `controlsLocation` property getter. -/
def controlsLocation (s : ValveWidget) : ContentLocation := s._controls_location

/-- `PneumaticValve.assemble_layout`: after the base class rearranges the
frames, the open/close button is made horizontal with minimum size
(100, 40) when the controls are at the top or the bottom, and vertical
with minimum size (100, 80) otherwise. -/
def assemble_layout (s : ValveWidget) : ValveWidget :=
  let s1 := PCDSSymbolBase.assemble_layout s
  if controlsLocation s1 = ContentLocation.Top ∨
      controlsLocation s1 = ContentLocation.Bottom then
    { s1 with open_close_btn :=
        { s1.open_close_btn with
          orientation := Qt.Horizontal
          minimum_width := 100
          minimum_height := 40 } }
  else
    { s1 with open_close_btn :=
        { s1.open_close_btn with
          orientation := Qt.Vertical
          minimum_width := 100
          minimum_height := 80 } }

/-- `PneumaticValve.create_channels`: after the base class creates the
mixin channels, the open/close button channel is set to the prefix
followed by `":OPN_SW"` when a non-empty prefix is set. -/
def create_channels (s : ValveWidget) : ValveWidget :=
  let s1 := PCDSSymbolBase.create_channels _interlock_suffix _error_suffix
    _open_state_suffix _close_state_suffix s
  if s1.channelsPrefixStr ≠ "" then
    { s1 with open_close_btn :=
        { s1.open_close_btn with
          channel := some (s1.channelsPrefixStr ++ ":OPN_SW") } }
  else s1

/-- `PneumaticValve.destroy_channels`: after the base class destroys the
mixin channels, the open/close button channel is cleared to `None`. -/
def destroy_channels (s : ValveWidget) : ValveWidget :=
  let s1 := PCDSSymbolBase.destroy_channels s
  { s1 with open_close_btn := { s1.open_close_btn with channel := none } }

/-- `PneumaticValve.interlock_value_changed`: delegates to the mixin and
then enables the controls frame exactly when the widget is not
interlocked. -/
def interlock_value_changed (s : ValveWidget) (value : Nat) : ValveWidget :=
  let s1 := InterlockMixin.interlock_value_changed s value
  { s1 with controls_frame_enabled := !s1._interlocked }

end PneumaticValve

namespace FastShutter

/-- `FastShutter._interlock_suffix`. -/
def _interlock_suffix : String := ":OPN_OK"

/-- `FastShutter._error_suffix`. -/
def _error_suffix : String := ":ERROR"

/-- `FastShutter._open_state_suffix`. -/
def _open_state_suffix : String := ":OPN_DI"

/-- `FastShutter._close_state_suffix`. -/
def _close_state_suffix : String := ":CLS_DI"

/-- The `controlsLocation` property getter. -/
def controlsLocation (s : ValveWidget) : ContentLocation := s._controls_location

/-- `FastShutter.assemble_layout`: after the base class rearranges the
frames, the open/close button is made horizontal with minimum size
(100, 40) when the controls are at the top or the bottom, and vertical
with minimum size (100, 80) otherwise. -/
def assemble_layout (s : ValveWidget) : ValveWidget :=
  let s1 := PCDSSymbolBase.assemble_layout s
  if controlsLocation s1 = ContentLocation.Top ∨
      controlsLocation s1 = ContentLocation.Bottom then
    { s1 with open_close_btn :=
        { s1.open_close_btn with
          orientation := Qt.Horizontal
          minimum_width := 100
          minimum_height := 40 } }
  else
    { s1 with open_close_btn :=
        { s1.open_close_btn with
          orientation := Qt.Vertical
          minimum_width := 100
          minimum_height := 80 } }

/-- `FastShutter.create_channels`: after the base class creates the mixin
channels, the open/close button channel is set to the prefix followed by
`":OPN_SW"` when a non-empty prefix is set. -/
def create_channels (s : ValveWidget) : ValveWidget :=
  let s1 := PCDSSymbolBase.create_channels _interlock_suffix _error_suffix
    _open_state_suffix _close_state_suffix s
  if s1.channelsPrefixStr ≠ "" then
    { s1 with open_close_btn :=
        { s1.open_close_btn with
          channel := some (s1.channelsPrefixStr ++ ":OPN_SW") } }
  else s1

/-- `FastShutter.destroy_channels`: after the base class destroys the
mixin channels, the open/close button channel is cleared to `None`. -/
def destroy_channels (s : ValveWidget) : ValveWidget :=
  let s1 := PCDSSymbolBase.destroy_channels s
  { s1 with open_close_btn := { s1.open_close_btn with channel := none } }

/-- `FastShutter.interlock_value_changed`: delegates to the mixin and then
enables the controls frame exactly when the widget is not interlocked. -/
def interlock_value_changed (s : ValveWidget) (value : Nat) : ValveWidget :=
  let s1 := InterlockMixin.interlock_value_changed s value
  { s1 with controls_frame_enabled := !s1._interlocked }

end FastShutter

/-- A concrete valve widget state, parameterized by the controls location
and the channels prefix, used to evaluate the definitions on concrete
inputs. -/
def sampleValve (loc : ContentLocation) (p : String) : ValveWidget :=
  { _interlocked := false
    controls_frame_enabled := true
    _controls_location := loc
    open_close_btn :=
      { orientation := 0, minimum_width := 0, minimum_height := 0,
        channel := none }
    channelsPrefixStr := p
    interlock_channel := none
    error_channel := none
    open_state_channel := none
    close_state_channel := none }

/-- C1: For PneumaticValve and FastShutter, after
`interlock_value_changed(value)` runs for any channel value, the controls
frame is enabled if and only if the widget is not interlocked (the
interlock signal asserted disables manual control). -/
theorem C1_interlock_disables_controls (s : ValveWidget) (value : Nat) :
    ((PneumaticValve.interlock_value_changed s value).controls_frame_enabled = true ↔
      (PneumaticValve.interlock_value_changed s value)._interlocked = false) ∧
    ((FastShutter.interlock_value_changed s value).controls_frame_enabled = true ↔
      (FastShutter.interlock_value_changed s value)._interlocked = false) := by
  constructor <;>
    simp [PneumaticValve.interlock_value_changed,
      FastShutter.interlock_value_changed,
      InterlockMixin.interlock_value_changed]

/-- Witness for C1 at a concrete state and channel value 1. -/
theorem C1_interlock_disables_controls_witness :
    (PneumaticValve.interlock_value_changed
        (sampleValve ContentLocation.Top "") 1).controls_frame_enabled = true ↔
    (PneumaticValve.interlock_value_changed
        (sampleValve ContentLocation.Top "") 1)._interlocked = false :=
  (C1_interlock_disables_controls (sampleValve ContentLocation.Top "") 1).1

/-- C2: For every negative value `w < 0`, assigning `w` to the `penWidth`
property is silently rejected: the state (stored width, pen, everything
else) is unchanged, no repaint is triggered, and the `penWidth` getter
afterwards returns the previous value. -/
theorem C2_negative_pen_width_rejected (s : BaseSymbolIcon) (w : ℚ)
    (h : w < 0) :
    s.setPenWidth w = s ∧
    (s.setPenWidth w).penWidth = s.penWidth ∧
    (s.setPenWidth w).update_count = s.update_count := by
  have hs : s.setPenWidth w = s := by
    unfold BaseSymbolIcon.setPenWidth
    simp [h]
  exact ⟨hs, by rw [hs], by rw [hs]⟩

/-- Witness for C2 at the initial state and width −1. -/
theorem C2_negative_pen_width_rejected_witness :
    (-1 : ℚ) < 0 ∧
    BaseSymbolIcon.init.setPenWidth (-1) = BaseSymbolIcon.init :=
  ⟨by norm_num,
    (C2_negative_pen_width_rejected BaseSymbolIcon.init (-1) (by norm_num)).1⟩

/-- Preservation: each single operation keeps the stored pen width
non-negative. -/
theorem applyOp_pen_width_nonneg (s : BaseSymbolIcon) (op : IconOp)
    (h : 0 ≤ s._pen_width) : 0 ≤ (applyOp s op)._pen_width := by
  cases op with
  | opSetBrush b =>
      simp only [applyOp, BaseSymbolIcon.setBrush, BaseSymbolIcon.update]
      split <;> exact h
  | opSetPenStyle st =>
      simp only [applyOp, BaseSymbolIcon.setPenStyle, BaseSymbolIcon.update]
      split <;> exact h
  | opSetPenColor c =>
      simp only [applyOp, BaseSymbolIcon.setPenColor, BaseSymbolIcon.update]
      split <;> exact h
  | opSetPenWidth w =>
      simp only [applyOp, BaseSymbolIcon.setPenWidth, BaseSymbolIcon.update]
      split
      · exact h
      · split
        · exact le_of_not_lt (by assumption)
        · exact h
  | opSetRotation a =>
      simp only [applyOp, BaseSymbolIcon.setRotation, BaseSymbolIcon.update]
      exact h
  | opPaint rect => exact h

/-- Helper: the non-negativity of the stored pen width is preserved along
any sequence of operations. -/
theorem foldl_applyOp_pen_width_nonneg (ops : List IconOp)
    (s : BaseSymbolIcon) (h : 0 ≤ s._pen_width) :
    0 ≤ (ops.foldl applyOp s)._pen_width := by
  induction ops generalizing s with
  | nil => exact h
  | cons op rest ih =>
      exact ih (applyOp s op) (applyOp_pen_width_nonneg s op h)

/-- C3: The stored pen width of a `BaseSymbolIcon` is non-negative in the
initial state and after every sequence of operations (constructor, every
property setter, paintEvent). -/
theorem C3_pen_width_invariant (ops : List IconOp) :
    0 ≤ BaseSymbolIcon.init._pen_width ∧
    0 ≤ (ops.foldl applyOp BaseSymbolIcon.init)._pen_width :=
  ⟨by norm_num [BaseSymbolIcon.init],
    foldl_applyOp_pen_width_nonneg ops BaseSymbolIcon.init
      (by norm_num [BaseSymbolIcon.init])⟩

/-- Witness for C3 on a concrete operation sequence that attempts a
negative width before a valid one. -/
theorem C3_pen_width_invariant_witness :
    0 ≤ (([IconOp.opSetPenWidth (-3), IconOp.opSetPenWidth 2]).foldl
      applyOp BaseSymbolIcon.init)._pen_width :=
  (C3_pen_width_invariant
    [IconOp.opSetPenWidth (-3), IconOp.opSetPenWidth 2]).2

/-- C4: On every paint event, `paintEvent` first applies the transform to
the canvas in this order — translate to the rect center, rotate by the
rotation property, translate back, offset by half the pen width, scale by
(width − penWidth, height − penWidth), translate by the rect origin —
then sets the brush and pen from the stored properties, and only then
delegates to `draw_icon`. -/
theorem C4_paint_transform_order (s : BaseSymbolIcon) (rect : QRect) :
    s.paintEvent rect =
      [PaintCmd.setClipping true, PaintCmd.drawPrimitiveWidget,
        PaintCmd.setRenderHintAntialiasing] ++
      [PaintCmd.translate (rect.w / 2) (rect.h / 2),
        PaintCmd.rotate s.rotation,
        PaintCmd.translate (-(rect.w / 2)) (-(rect.h / 2)),
        PaintCmd.translate (s.penWidth / 2) (s.penWidth / 2),
        PaintCmd.scale (rect.w - s.penWidth) (rect.h - s.penWidth),
        PaintCmd.translate rect.x rect.y] ++
      [PaintCmd.setBrush s.brush, PaintCmd.setPen s._pen,
        PaintCmd.drawIcon, PaintCmd.qwidgetPaintEvent] := rfl

/-- Witness for C4: the paint trace of the initial widget on the
rectangle (0, 0, 100, 50). -/
theorem C4_paint_transform_order_witness :
    BaseSymbolIcon.init.paintEvent ⟨0, 0, 100, 50⟩ =
      [PaintCmd.setClipping true, PaintCmd.drawPrimitiveWidget,
        PaintCmd.setRenderHintAntialiasing,
        PaintCmd.translate 50 25,
        PaintCmd.rotate 0,
        PaintCmd.translate (-50) (-25),
        PaintCmd.translate (1 / 2) (1 / 2),
        PaintCmd.scale 99 49,
        PaintCmd.translate 0 0,
        PaintCmd.setBrush { color := ⟨0, 255, 0⟩, style := Qt.SolidPattern },
        PaintCmd.setPen
          { style := Qt.SolidLine, color := ⟨0, 0, 0⟩, width := 1,
            cosmetic := true },
        PaintCmd.drawIcon, PaintCmd.qwidgetPaintEvent] := by
  rw [C4_paint_transform_order BaseSymbolIcon.init ⟨0, 0, 100, 50⟩]
  norm_num [BaseSymbolIcon.init, BaseSymbolIcon.rotation,
    BaseSymbolIcon.penWidth, BaseSymbolIcon.brush, QPen.ofStyle,
    QPen.setCosmetic, QPen.setWidthF, QPen.setColor]

/-- C5: For PneumaticValve and FastShutter, `assemble_layout` sets the
open/close button orientation to horizontal with minimum size (100, 40)
when `controlsLocation` is Top or Bottom, and to vertical with minimum
size (100, 80) for every other location (everything else about the button
is unchanged). -/
theorem C5_assemble_layout_orientation (s : ValveWidget) :
    ((s._controls_location = ContentLocation.Top ∨
        s._controls_location = ContentLocation.Bottom) →
      (PneumaticValve.assemble_layout s).open_close_btn =
        { s.open_close_btn with
          orientation := Qt.Horizontal, minimum_width := 100,
          minimum_height := 40 } ∧
      (FastShutter.assemble_layout s).open_close_btn =
        { s.open_close_btn with
          orientation := Qt.Horizontal, minimum_width := 100,
          minimum_height := 40 }) ∧
    (¬(s._controls_location = ContentLocation.Top ∨
        s._controls_location = ContentLocation.Bottom) →
      (PneumaticValve.assemble_layout s).open_close_btn =
        { s.open_close_btn with
          orientation := Qt.Vertical, minimum_width := 100,
          minimum_height := 80 } ∧
      (FastShutter.assemble_layout s).open_close_btn =
        { s.open_close_btn with
          orientation := Qt.Vertical, minimum_width := 100,
          minimum_height := 80 }) := by
  constructor <;> intro h <;>
    simp [PneumaticValve.assemble_layout, FastShutter.assemble_layout,
      PCDSSymbolBase.assemble_layout, PneumaticValve.controlsLocation,
      FastShutter.controlsLocation, h]

/-- Witness for C5 at Top (horizontal) and at Left (vertical). -/
theorem C5_assemble_layout_orientation_witness :
    (PneumaticValve.assemble_layout
        (sampleValve ContentLocation.Top "")).open_close_btn.orientation =
      Qt.Horizontal ∧
    (FastShutter.assemble_layout
        (sampleValve ContentLocation.Left "")).open_close_btn.orientation =
      Qt.Vertical := by
  have h1 := C5_assemble_layout_orientation (sampleValve ContentLocation.Top "")
  have h2 := C5_assemble_layout_orientation (sampleValve ContentLocation.Left "")
  exact ⟨by rw [(h1.1 (Or.inl rfl)).1], by rw [(h2.2 (by decide)).2]⟩

/-- C6: PneumaticValve wires its controls to channels by suffix
convention: the interlock channel uses ":OPN_OK", the error channel
":STATE", the open and close state channels ":OPN_DI" and ":CLS_DI";
`create_channels` sets the open/close button channel to the channels
prefix followed by ":OPN_SW" whenever a non-empty prefix is set, and
`destroy_channels` clears the button channel to None. -/
theorem C6_pneumatic_valve_channel_suffixes (s : ValveWidget)
    (h : s.channelsPrefixStr ≠ "") :
    PneumaticValve._interlock_suffix = ":OPN_OK" ∧
    PneumaticValve._error_suffix = ":STATE" ∧
    PneumaticValve._open_state_suffix = ":OPN_DI" ∧
    PneumaticValve._close_state_suffix = ":CLS_DI" ∧
    (PneumaticValve.create_channels s).interlock_channel =
      some (s.channelsPrefixStr ++ ":OPN_OK") ∧
    (PneumaticValve.create_channels s).error_channel =
      some (s.channelsPrefixStr ++ ":STATE") ∧
    (PneumaticValve.create_channels s).open_state_channel =
      some (s.channelsPrefixStr ++ ":OPN_DI") ∧
    (PneumaticValve.create_channels s).close_state_channel =
      some (s.channelsPrefixStr ++ ":CLS_DI") ∧
    (PneumaticValve.create_channels s).open_close_btn.channel =
      some (s.channelsPrefixStr ++ ":OPN_SW") ∧
    (PneumaticValve.destroy_channels s).open_close_btn.channel = none := by
  refine ⟨rfl, rfl, rfl, rfl, ?_, ?_, ?_, ?_, ?_, rfl⟩ <;>
    simp [PneumaticValve.create_channels, PCDSSymbolBase.create_channels,
      PneumaticValve._interlock_suffix, PneumaticValve._error_suffix,
      PneumaticValve._open_state_suffix, PneumaticValve._close_state_suffix, h]

/-- Witness for C6 with the concrete prefix "CXI:VGC:01". -/
theorem C6_pneumatic_valve_channel_suffixes_witness :
    ("CXI:VGC:01" : String) ≠ "" ∧
    (PneumaticValve.create_channels
        (sampleValve ContentLocation.Top "CXI:VGC:01")).open_close_btn.channel =
      some "CXI:VGC:01:OPN_SW" ∧
    (PneumaticValve.create_channels
        (sampleValve ContentLocation.Top "CXI:VGC:01")).interlock_channel =
      some "CXI:VGC:01:OPN_OK" := by
  have h := C6_pneumatic_valve_channel_suffixes
    (sampleValve ContentLocation.Top "CXI:VGC:01") (by decide)
  refine ⟨by decide, ?_, ?_⟩
  · rw [h.2.2.2.2.2.2.2.2.1]; rfl
  · rw [h.2.2.2.2.1]; rfl

/-- C7: Getter/setter round-trip for each property of `BaseSymbolIcon`
(brush, penStyle, penColor, rotation unconditionally; penWidth for every
non-negative value): setting the property to `v` and then reading it
returns `v`. -/
theorem C7_property_roundtrip (s : BaseSymbolIcon) (b : QBrush) (st : Nat)
    (c : QColor) (a w : ℚ) :
    (s.setBrush b).brush = b ∧
    (s.setPenStyle st).penStyle = st ∧
    (s.setPenColor c).penColor = c ∧
    (s.setRotation a).rotation = a ∧
    (0 ≤ w → (s.setPenWidth w).penWidth = w) := by
  refine ⟨?_, ?_, ?_, ?_, ?_⟩
  · by_cases hb : b = s._brush <;>
      simp [BaseSymbolIcon.setBrush, BaseSymbolIcon.brush,
        BaseSymbolIcon.update, hb]
  · by_cases hst : st = s._pen_style <;>
      simp [BaseSymbolIcon.setPenStyle, BaseSymbolIcon.penStyle,
        BaseSymbolIcon.update, hst]
  · by_cases hc : c = s._pen_color <;>
      simp [BaseSymbolIcon.setPenColor, BaseSymbolIcon.penColor,
        BaseSymbolIcon.update, hc]
  · simp [BaseSymbolIcon.setRotation, BaseSymbolIcon.rotation,
      BaseSymbolIcon.update]
  · intro hw
    have h0 : ¬w < 0 := not_lt.mpr hw
    by_cases hww : w = s._pen_width <;>
      simp [BaseSymbolIcon.setPenWidth, BaseSymbolIcon.penWidth,
        BaseSymbolIcon.update, h0, hww]

/-- Witness for C7 at the initial state, with pen width 2 and rotation
90. -/
theorem C7_property_roundtrip_witness :
    (BaseSymbolIcon.init.setPenWidth 2).penWidth = 2 ∧
    (BaseSymbolIcon.init.setRotation 90).rotation = 90 := by
  have h := C7_property_roundtrip BaseSymbolIcon.init
    { color := ⟨255, 0, 0⟩, style := Qt.SolidPattern } 2 ⟨255, 0, 0⟩ 90 2
  exact ⟨h.2.2.2.2 (by norm_num), h.2.2.2.1⟩

/-- C8: Setting a property triggers a repaint: for each property of
`BaseSymbolIcon` (brush, penStyle, penColor, penWidth with a non-negative
value, rotation), assigning a value different from the current one causes
the `update()` method of the widget (repaint request) to be invoked. -/
theorem C8_set_triggers_repaint (s : BaseSymbolIcon) (b : QBrush) (st : Nat)
    (c : QColor) (a w : ℚ) :
    (b ≠ s.brush → (s.setBrush b).update_count = s.update_count + 1) ∧
    (st ≠ s.penStyle → (s.setPenStyle st).update_count = s.update_count + 1) ∧
    (c ≠ s.penColor → (s.setPenColor c).update_count = s.update_count + 1) ∧
    (0 ≤ w → w ≠ s.penWidth →
      (s.setPenWidth w).update_count = s.update_count + 1) ∧
    (a ≠ s.rotation → (s.setRotation a).update_count = s.update_count + 1) := by
  refine ⟨?_, ?_, ?_, ?_, ?_⟩
  · intro hb
    simp only [BaseSymbolIcon.brush] at hb
    simp [BaseSymbolIcon.setBrush, BaseSymbolIcon.update, hb]
  · intro hst
    simp only [BaseSymbolIcon.penStyle] at hst
    simp [BaseSymbolIcon.setPenStyle, BaseSymbolIcon.update, hst]
  · intro hc
    simp only [BaseSymbolIcon.penColor] at hc
    simp [BaseSymbolIcon.setPenColor, BaseSymbolIcon.update, hc]
  · intro hw hww
    simp only [BaseSymbolIcon.penWidth] at hww
    have h0 : ¬w < 0 := not_lt.mpr hw
    simp [BaseSymbolIcon.setPenWidth, BaseSymbolIcon.update, h0, hww]
  · intro ha
    simp [BaseSymbolIcon.setRotation, BaseSymbolIcon.update]

/-- Witness for C8 at the initial state, setting pen width 2 and rotation
90 (both differ from the initial values 1 and 0). -/
theorem C8_set_triggers_repaint_witness :
    (BaseSymbolIcon.init.setPenWidth 2).update_count =
      BaseSymbolIcon.init.update_count + 1 ∧
    (BaseSymbolIcon.init.setRotation 90).update_count =
      BaseSymbolIcon.init.update_count + 1 := by
  have h := C8_set_triggers_repaint BaseSymbolIcon.init
    { color := ⟨255, 0, 0⟩, style := Qt.SolidPattern } 2 ⟨255, 0, 0⟩ 90 2
  exact ⟨h.2.2.2.1 (by norm_num) (by norm_num [BaseSymbolIcon.penWidth,
    BaseSymbolIcon.init]), h.2.2.2.2 (by norm_num [BaseSymbolIcon.rotation,
    BaseSymbolIcon.init])⟩

/-- Helper: one operation preserves the property that a stored
non-integer pen width is carried by the pen as its floor. -/
theorem applyOp_pen_floor_step (s : BaseSymbolIcon) (op : IconOp)
    (h : s._pen_width.den ≠ 1 → s._pen.width = (⌊s._pen_width⌋ : ℚ)) :
    (applyOp s op)._pen_width.den ≠ 1 →
      (applyOp s op)._pen.width = (⌊(applyOp s op)._pen_width⌋ : ℚ) := by
  cases op with
  | opSetBrush b =>
      simp only [applyOp, BaseSymbolIcon.setBrush, BaseSymbolIcon.update]
      split <;> exact h
  | opSetPenStyle st =>
      simp only [applyOp, BaseSymbolIcon.setPenStyle, BaseSymbolIcon.update]
      split <;> exact h
  | opSetPenColor c =>
      simp only [applyOp, BaseSymbolIcon.setPenColor, BaseSymbolIcon.update]
      split <;> exact h
  | opSetPenWidth w =>
      simp only [applyOp, BaseSymbolIcon.setPenWidth, BaseSymbolIcon.update]
      split
      · exact h
      · split
        · intro _
          have hw : 0 ≤ w := le_of_not_lt (by assumption)
          simp [QPen.setWidth, cppIntOfRat, hw]
        · exact h
  | opSetRotation a =>
      simp only [applyOp, BaseSymbolIcon.setRotation, BaseSymbolIcon.update]
      exact h
  | opPaint rect => exact h

/-- Helper: along any operation sequence, a stored non-integer pen width
is carried by the pen as its floor. -/
theorem foldl_pen_floor_inv_aux (ops : List IconOp) (s : BaseSymbolIcon)
    (h : s._pen_width.den ≠ 1 → s._pen.width = (⌊s._pen_width⌋ : ℚ)) :
    (ops.foldl applyOp s)._pen_width.den ≠ 1 →
      (ops.foldl applyOp s)._pen.width =
        (⌊(ops.foldl applyOp s)._pen_width⌋ : ℚ) := by
  induction ops generalizing s with
  | nil => exact h
  | cons op rest ih => exact ih (applyOp s op) (applyOp_pen_floor_step s op h)

/-- C9: In any state reachable from the constructor, after `penWidth` is
set to a non-negative value `w`, the getter returns `w`; but the pen is
updated through the integer `setWidth` (its width becomes `⌊w⌋`), so for
every non-integer `w` the width carried by the pen differs from the value
reported by the property; only the constructor uses `setWidthF`, where
pen width and property agree. -/
theorem C9_pen_width_truncation (ops : List IconOp) (w : ℚ) (hw : 0 ≤ w) :
    ((ops.foldl applyOp BaseSymbolIcon.init).setPenWidth w).penWidth = w ∧
    (w ≠ (ops.foldl applyOp BaseSymbolIcon.init).penWidth →
      ((ops.foldl applyOp BaseSymbolIcon.init).setPenWidth w)._pen.width =
        (⌊w⌋ : ℚ)) ∧
    (w.den ≠ 1 →
      ((ops.foldl applyOp BaseSymbolIcon.init).setPenWidth w)._pen.width ≠
        ((ops.foldl applyOp BaseSymbolIcon.init).setPenWidth w).penWidth) ∧
    BaseSymbolIcon.init._pen.width = BaseSymbolIcon.init.penWidth := by
  set s := ops.foldl applyOp BaseSymbolIcon.init with hs
  have h0 : ¬w < 0 := not_lt.mpr hw
  have hfloor_ne : w.den ≠ 1 → (⌊w⌋ : ℚ) ≠ w := by
    intro hden hfe
    exact hden (by rw [← hfe]; exact Rat.den_intCast ⌊w⌋)
  have hget : (s.setPenWidth w).penWidth = w := by
    by_cases hww : w = s._pen_width <;>
      simp [BaseSymbolIcon.setPenWidth, BaseSymbolIcon.penWidth,
        BaseSymbolIcon.update, h0, hww]
  have hpen : w ≠ s.penWidth → (s.setPenWidth w)._pen.width = (⌊w⌋ : ℚ) := by
    intro hww
    simp only [BaseSymbolIcon.penWidth] at hww
    simp [BaseSymbolIcon.setPenWidth, BaseSymbolIcon.update, QPen.setWidth,
      cppIntOfRat, h0, hww, hw]
  refine ⟨hget, hpen, ?_, rfl⟩
  intro hden
  rw [hget]
  by_cases hww : w = s._pen_width
  · have hres : s.setPenWidth w = s := by
      simp [BaseSymbolIcon.setPenWidth, h0, hww]
    have hinit : BaseSymbolIcon.init._pen_width.den ≠ 1 →
        BaseSymbolIcon.init._pen.width =
          (⌊BaseSymbolIcon.init._pen_width⌋ : ℚ) := by
      intro hd
      exact absurd (by simp [BaseSymbolIcon.init]) hd
    have hI := foldl_pen_floor_inv_aux ops BaseSymbolIcon.init hinit
    rw [← hs] at hI
    have hsd : s._pen_width.den ≠ 1 := by rw [← hww]; exact hden
    rw [hres, hI hsd, ← hww]
    exact hfloor_ne hden
  · rw [hpen (by simpa [BaseSymbolIcon.penWidth] using hww)]
    exact hfloor_ne hden

/-- Witness for C9 at the initial state and width 5/2: the property
reports 5/2 while the pen carries width 2. -/
theorem C9_pen_width_truncation_witness :
    (BaseSymbolIcon.init.setPenWidth (5 / 2)).penWidth = 5 / 2 ∧
    (BaseSymbolIcon.init.setPenWidth (5 / 2))._pen.width = 2 ∧
    (BaseSymbolIcon.init.setPenWidth (5 / 2))._pen.width ≠
      (BaseSymbolIcon.init.setPenWidth (5 / 2)).penWidth := by
  have h := C9_pen_width_truncation [] (5 / 2) (by norm_num)
  simp only [List.foldl_nil] at h
  have hne : (5 / 2 : ℚ) ≠ BaseSymbolIcon.init.penWidth := by
    norm_num [BaseSymbolIcon.penWidth, BaseSymbolIcon.init]
  refine ⟨h.1, ?_, h.2.2.1 (by norm_num)⟩
  rw [h.2.1 hne]
  norm_num

/-- C10: The FastShutter error channel uses the suffix ":ERROR" — different
from the PneumaticValve suffix ":STATE" and not among the suffixes the spec
enumerates — while sharing ":OPN_OK", ":OPN_DI", ":CLS_DI" and the
open/close button suffix ":OPN_SW" with PneumaticValve. -/
theorem C10_fast_shutter_error_suffix :
    FastShutter._error_suffix = ":ERROR" ∧
    FastShutter._error_suffix ≠ PneumaticValve._error_suffix ∧
    FastShutter._error_suffix ∉
      ([":OPN_OK", ":STATE", ":OPN_DI", ":CLS_DI", ":OPN_SW"] : List String) ∧
    FastShutter._interlock_suffix = PneumaticValve._interlock_suffix ∧
    FastShutter._open_state_suffix = PneumaticValve._open_state_suffix ∧
    FastShutter._close_state_suffix = PneumaticValve._close_state_suffix ∧
    ∀ s : ValveWidget,
      (FastShutter.create_channels s).open_close_btn.channel =
        (PneumaticValve.create_channels s).open_close_btn.channel := by
  refine ⟨rfl, by decide, by decide, rfl, rfl, rfl, ?_⟩
  intro s
  by_cases h : s.channelsPrefixStr = "" <;>
    simp [FastShutter.create_channels, PneumaticValve.create_channels,
      PCDSSymbolBase.create_channels, h]

/-- Witness for C10: both widgets wire the open/close button to the same
channel for the concrete prefix "XRT:FS:01". -/
theorem C10_fast_shutter_error_suffix_witness :
    (FastShutter.create_channels
        (sampleValve ContentLocation.Top "XRT:FS:01")).open_close_btn.channel =
      (PneumaticValve.create_channels
        (sampleValve ContentLocation.Top "XRT:FS:01")).open_close_btn.channel :=
  C10_fast_shutter_error_suffix.2.2.2.2.2.2
    (sampleValve ContentLocation.Top "XRT:FS:01")

end Pcdswidgets
